import Mathlib

/-!
Verification of the AuditronAI code-analysis core and its frontend services.

The frontend TypeScript sources (dashboard hook, monitoring service, mock
API handlers, shared types) are embedded directly.  The core engine
(pattern repository, plugin registry, orchestrator, scoring engine,
persistence layer) ships in this repository only as corrupted CPython
bytecode, so those components are modelled from the specification; each
such definition carries a doc comment saying so.  Machine floats are
modelled as rationals; JavaScript `Math.round` as floor of `q + 1/2`.
-/

namespace AuditronAI

/-- Issue severity, from the spec data model and
`frontend/src/types/global.d.ts` (`'low' | 'medium' | 'high' | 'critical'`). -/
inductive Severity where
  | low
  | medium
  | high
  | critical
deriving DecidableEq, Repr

/-- Issue category, from the spec data model
(`category∈{security,quality,performance}`). -/
inductive Category where
  | security
  | quality
  | performance
deriving DecidableEq, Repr

/-- Analysis status, from `frontend/src/types/global.d.ts`
(`status: 'PENDING' | 'PROCESSING' | 'COMPLETED' | 'FAILED'`). -/
inductive Status where
  | pending
  | processing
  | completed
  | failed
deriving DecidableEq, Repr

/-- One issue entry of the frontend `Analysis` type
(`frontend/src/types/global.d.ts`): severities and categories are plain
strings there. -/
structure FrontIssue where
  itype : String
  severity : String
  message : String
  line : Nat
  file : String
  code : String
  suggestion : String
deriving DecidableEq, Repr

/-- The frontend `Analysis` record (`frontend/src/types/global.d.ts`,
plus the `quality_score` / `global_score` fields set by the mock API
handlers).  Timestamps are epoch milliseconds. -/
structure FrontendAnalysis where
  id : String
  user_id : String
  repositoryName : String
  language : String
  status : Status
  summary : String
  metrics : List (String × ℚ)
  quality_score : ℚ
  global_score : ℚ
  issues : List FrontIssue
  lines_of_code : Nat
  complexity_score : ℚ
  security_score : ℚ
  performance_score : ℚ
  created_at : Int
  updated_at : Int
deriving DecidableEq, Repr

/-- The mock `Analysis` served by the `GET /analysis/:id` handler
(mock handlers file, the record with id `mock-analysis-id`).  Message
strings are transliterated to plain ASCII; `created_at`/`updated_at`
are `Date.now()` at serving time, passed in as `now`. -/
def mockAnalysisDetail (now : Int) : FrontendAnalysis :=
  { id := "mock-analysis-id"
    user_id := "1"
    repositoryName := "sample.py"
    language := "python"
    status := Status.completed
    summary := "Analyse complete du fichier sample.py : 3 vulnerabilites de securite detectees (2 high, 1 critical) et 2 problemes de qualite de code"
    metrics := [("Lignes de code", 45), ("Fonctions", 5), ("Classes", 1),
                ("Complexite cyclomatique moyenne", 21/5), ("complexity", 21/5),
                ("duplications", 1), ("comment_ratio", 1/5)]
    quality_score := 17/20
    global_score := 7/10
    issues :=
      [ { itype := "security", severity := "high"
          message := "Utilisation non securisee de os.system()"
          line := 5, file := "sample.py", code := "os.system(cmd)"
          suggestion := "Utilisez subprocess.run() avec shell=False" },
        { itype := "security", severity := "critical"
          message := "Deserialisation non securisee avec pickle"
          line := 10, file := "sample.py", code := "pickle.loads(data)"
          suggestion := "Evitez pickle avec des donnees non fiables" },
        { itype := "security", severity := "high"
          message := "Vulnerabilite injection SQL potentielle"
          line := 15, file := "sample.py", code := "SELECT * FROM users WHERE id = user_input"
          suggestion := "Utilisez des requetes parametrees" } ]
    lines_of_code := 45
    complexity_score := 21/5
    security_score := 7/2
    performance_score := 39/5
    created_at := now
    updated_at := now }

/-- Structure `AnalysisStats` from `frontend/src/types/global.d.ts`. -/
structure AnalysisStats where
  totalScans : Nat
  issuesFound : Nat
  issuesResolved : Nat
  averageResolutionTime : String
deriving DecidableEq, Repr

/-- The mock stats served by the `GET /analysis/stats` handler. -/
def mockAnalysisStats : AnalysisStats :=
  { totalScans := 150
    issuesFound := 42
    issuesResolved := 128
    averageResolutionTime := "3.5 days" }

/-- JavaScript `Math.round` on the nonnegative rationals that occur here:
round half away from zero, i.e. `⌊q + 1/2⌋`. -/
def jsRound (q : ℚ) : ℤ :=
  ⌊q + 1/2⌋

/-- Function `calculateGlobalScore` from the `useDashboard` hook:
`if (stats.issuesFound === 0) return 100;` then
`Math.round((stats.issuesResolved / stats.issuesFound) * 100)`. -/
def calculateGlobalScore (stats : AnalysisStats) : ℤ :=
  if stats.issuesFound = 0 then 100
  else jsRound ((stats.issuesResolved : ℚ) / (stats.issuesFound : ℚ) * 100)

/-- Structure `ApiMetric` from the monitoring service. -/
structure ApiMetric where
  endpoint : String
  method : String
  duration : ℚ
  status : Int
  timestamp : Int
deriving DecidableEq, Repr

/-- The `timeRange` argument of `MonitoringService.getMetrics`. -/
inductive TimeRange where
  | hour
  | day
  | week
deriving DecidableEq, Repr

namespace MonitoringService

/-- The `ranges` table of `getMetrics`: the cutoff instant for each range. -/
def rangeCutoff (now : Int) : TimeRange → Int
  | TimeRange.hour => now - 60 * 60 * 1000
  | TimeRange.day => now - 24 * 60 * 60 * 1000
  | TimeRange.week => now - 7 * 24 * 60 * 60 * 1000

/-- Function `calculateAverageDuration`: `0` on the empty list, otherwise the sum of
durations divided by the length. -/
def calculateAverageDuration (metrics : List ApiMetric) : ℚ :=
  if metrics.length = 0 then 0
  else (metrics.map fun m => m.duration).sum / (metrics.length : ℚ)

/-- Function `calculateErrorRate`: `0` on the empty list, otherwise the share of
metrics with `status >= 400`, as a percentage. -/
def calculateErrorRate (metrics : List ApiMetric) : ℚ :=
  if metrics.length = 0 then 0
  else (((metrics.filter fun m => 400 ≤ m.status).length : ℚ) / (metrics.length : ℚ)) * 100

/-- The fields of the report returned by `getMetrics` that the claims
are about (`statusDistribution` / `endpointPerformance` omitted). -/
structure MetricsReport where
  totalCalls : Nat
  averageDuration : ℚ
  errorRate : ℚ
deriving Repr

/-- Function `MonitoringService.getMetrics`: filter the stored metrics to the
requested time range, then aggregate. -/
def getMetrics (stored : List ApiMetric) (now : Int) (timeRange : TimeRange) : MetricsReport :=
  let filteredMetrics := stored.filter fun m => rangeCutoff now timeRange < m.timestamp
  { totalCalls := filteredMetrics.length
    averageDuration := calculateAverageDuration filteredMetrics
    errorRate := calculateErrorRate filteredMetrics }

/-- Function `MonitoringService.logApiCall`, restricted to its effect on the
`metrics` list: push the new metric, then keep only the entries of the
last 24 hours (`m.timestamp > Date.now() - 24*60*60*1000`). -/
def logApiCall (stored : List ApiMetric) (metric : ApiMetric) (now : Int) : List ApiMetric :=
  let pushed := stored ++ [metric]
  pushed.filter fun m => now - 24 * 60 * 60 * 1000 < m.timestamp

end MonitoringService

/-! ### The core engine, modelled from the spec

The Python sources of the core (pattern repository, scoring engine,
orchestrator, plugin registry, persistence layer) are present in the
repository only as corrupted CPython 3.11 bytecode; the readable
docstrings and identifiers in that bytecode corroborate the spec where
noted. -/

/-- Modelled from the spec: an `Issue` as produced by pattern matching,
carrying the matched pattern's metadata (severity, category, external
reference such as a CWE id) together with its location and snippet. -/
structure Issue where
  itype : String
  severity : Severity
  category : Category
  message : String
  file : String
  line : Nat
  snippet : String
  reference : String
deriving DecidableEq, Repr

/-- Modelled from the spec: a compiled detection rule.  The compiled
matcher is modelled as a boolean test on one source line. -/
structure Pattern where
  pid : String
  matcher : String → Bool
  severity : Severity
  category : Category
  description : String
  reference : String

/-- Does `needle` occur at the head of `hay`? -/
def charsStartWith : List Char → List Char → Bool
  | [], _ => true
  | _ :: _, [] => false
  | a :: as, b :: bs => a == b && charsStartWith as bs

/-- Does `needle` occur anywhere in `hay`? -/
def charsContain (needle : List Char) : List Char → Bool
  | [] => needle.isEmpty
  | b :: bs => charsStartWith needle (b :: bs) || charsContain needle bs

/-- Substring test on strings, used as the compiled matcher of the
modelled patterns. -/
def containsSub (needle hay : String) : Bool :=
  charsContain needle.data hay.data

/-- Modelled from the spec (missing source: the pattern-matching scan of
the analyzer plugins): scan the source line-wise against the compiled
patterns; each match yields exactly one `Issue` carrying the pattern's
metadata, at the 1-based line where it matched. -/
def matchPatterns (patterns : List Pattern) (file : String) (lines : List String) : List Issue :=
  (lines.enum.map fun p =>
    patterns.filterMap fun pat =>
      if pat.matcher p.2 then
        some { itype := pat.pid, severity := pat.severity, category := pat.category,
               message := pat.description, file := file, line := p.1 + 1,
               snippet := p.2, reference := pat.reference }
      else none).flatten

/-- The `eval(...)` rule of the TypeScript security pattern set, the one
rule of that set the spec specifies: severity high, category security,
reference CWE-95. -/
def evalPattern : Pattern :=
  { pid := "ts-eval"
    matcher := fun line => containsSub "eval(" line
    severity := Severity.high
    category := Category.security
    description := "Use of eval() on untrusted input"
    reference := "CWE-95" }

/-- Modelled from the spec (missing source: the TypeScript pattern
repository): the TypeScript security pattern set.  Only the `eval`
rule is specified, so the modelled set holds exactly that rule. -/
def typescriptSecurityPatterns : List Pattern :=
  [evalPattern]

/-- The `Issue` that `matchPatterns typescriptSecurityPatterns` yields on
the one-line source `eval(userInput)`. -/
def evalIssue : Issue :=
  { itype := "ts-eval"
    severity := Severity.high
    category := Category.security
    message := "Use of eval() on untrusted input"
    file := "input.ts"
    line := 1
    snippet := "eval(userInput)"
    reference := "CWE-95" }

/-- Modelled from the spec (§4.5): severity penalty weights
critical 4, high 2.5, medium 1, low 0.3. -/
def severityPenalty : Severity → ℚ
  | Severity.critical => 4
  | Severity.high => 5/2
  | Severity.medium => 1
  | Severity.low => 3/10

/-- Total severity-weighted penalty of the issues in category `cat`. -/
def issuePenalty (cat : Category) (issues : List Issue) : ℚ :=
  ((issues.filter fun i => i.category == cat).map fun i => severityPenalty i.severity).sum

/-- Modelled from the spec: the metrics the scoring engine consumes
(raw complexity, duplication ratio, comment ratio); absent metrics
are zero. -/
structure Metrics where
  complexity : ℚ
  duplications : ℚ
  comment_ratio : ℚ
deriving DecidableEq, Repr

/-- The all-zero metric map of a zero-match submission. -/
def zeroMetrics : Metrics :=
  { complexity := 0, duplications := 0, comment_ratio := 0 }

/-- Modelled from the spec (§4.5, missing source): `security_score`,
start at 10, subtract the severity-weighted penalty of the
security-category issues, floor 0. -/
def security_score (issues : List Issue) : ℚ :=
  max 0 (10 - issuePenalty Category.security issues)

/-- Modelled from the spec (§4.5, missing source): `performance_score`,
analogous to `security_score` over the performance-category issues. -/
def performance_score (issues : List Issue) : ℚ :=
  max 0 (10 - issuePenalty Category.performance issues)

/-- Modelled from the spec (§4.5, missing source): `complexity_score`,
inverse of the raw complexity metric, clipped to `[0, 10]`. -/
def complexity_score (m : Metrics) : ℚ :=
  max 0 (min 10 (10 - m.complexity))

/-- Modelled from the spec (§4.5, missing source): `quality_score` on the
0–1 scale, decreasing in the severity-weighted quality-issue density and
the duplication ratio, clipped to `[0, 1]`. -/
def quality_score (issues : List Issue) (m : Metrics) : ℚ :=
  max 0 (min 1 (1 - issuePenalty Category.quality issues / 10 - m.duplications / 100))

/-- Modelled from the spec (§4.5, missing source): `global_score`, the
fixed-weight average of the four component scores with weights
security 0.4, quality 0.3, complexity 0.2, performance 0.1. -/
def global_score (issues : List Issue) (m : Metrics) : ℚ :=
  2/5 * security_score issues + 3/10 * quality_score issues m
    + 1/5 * complexity_score m + 1/10 * performance_score issues

/-! ### Orchestrator, modelled from the spec (§4.4, §7) -/

/-- Modelled from the spec (§7): the error kinds a plugin can signal
while analyzing one submission. -/
inductive PluginError where
  | unsupportedInput
  | pluginFault (desc : String)
  | timeout
deriving DecidableEq, Repr

/-- The outcome of invoking one plugin on the submission: its name plus
either the issues it produced or the error it signalled. -/
structure PluginRun where
  name : String
  result : Except PluginError (List Issue)
deriving Repr

/-- Modelled from the spec (§7): `UnsupportedInput` never aborts a
submission; `PluginFault` and `Timeout` always do. -/
def fatalError : PluginError → Bool
  | PluginError.unsupportedInput => false
  | PluginError.pluginFault _ => true
  | PluginError.timeout => true

/-- Did this plugin run signal a submission-aborting error? -/
def runIsFatal (r : PluginRun) : Bool :=
  match r.result with
  | Except.error e => fatalError e
  | Except.ok _ => false

/-- Did this plugin run signal `UnsupportedInput` (to be recorded as
skipped)? -/
def runIsSkipped (r : PluginRun) : Bool :=
  match r.result with
  | Except.error PluginError.unsupportedInput => true
  | _ => false

/-- The issues a plugin run contributed (none if it errored). -/
def runIssues (r : PluginRun) : List Issue :=
  match r.result with
  | Except.ok issues => issues
  | Except.error _ => []

/-- The orchestrator's verdict on one submission: terminal status,
retained issues, and the plugins recorded as skipped. -/
structure Outcome where
  status : Status
  issues : List Issue
  skipped : List String
deriving DecidableEq, Repr

/-- Modelled from the spec (§4.4, missing source): the orchestrator's
merge of the plugin runs of one submission.  Any unexpected
(non-UnsupportedInput) fault marks the submission `Failed` and discards
all partial issues; otherwise the submission completes with the
concatenated issues of the successful plugins, and every
`UnsupportedInput` plugin recorded as skipped. -/
def orchestrate (runs : List PluginRun) : Outcome :=
  if runs.any runIsFatal then
    { status := Status.failed, issues := [], skipped := [] }
  else
    { status := Status.completed
      issues := (runs.map runIssues).flatten
      skipped := (runs.filter runIsSkipped).map fun r => r.name }

/-- Modelled from the spec (§4.4): the status transitions the
orchestrator performs: `Pending → Processing → {Completed, Failed}`. -/
inductive StatusStep : Status → Status → Prop where
  | start : StatusStep Status.pending Status.processing
  | complete : StatusStep Status.processing Status.completed
  | fail : StatusStep Status.processing Status.failed

/-- The status trace of one submission: accepted as `Pending`, moved to
`Processing`, then to the orchestrator's terminal status. -/
def submissionTrace (runs : List PluginRun) : List Status :=
  [Status.pending, Status.processing, (orchestrate runs).status]

/-- Modelled from the spec (§4.6, missing source; bytecode strings show
an update-or-insert on the analyses table): `save` replaces the record
with the same id if present, else inserts — it never removes a record. -/
def save (store : List FrontendAnalysis) (a : FrontendAnalysis) : List FrontendAnalysis :=
  if store.any fun x => x.id == a.id then
    store.map fun x => if x.id == a.id then a else x
  else
    a :: store

/-! ### Plugin registry, modelled from the spec (§4.2)

The bytecode strings of `core/services/plugin_registry` show the class
`PluginRegistry` with `_plugins : Dict`, `register` (raising `TypeError`
unless the class subclasses `AnalysisPlugin`), `get` (raising `KeyError`
when absent), `list_plugins` (a copy) and `clear`. -/

/-- Modelled from the spec (§4.3): a plugin type satisfying the
AnalyzerPlugin contract — declared languages and categories plus an
`analyze` entry point.  In this typed model every value of this type
satisfies the contract by construction. -/
structure AnalyzerPlugin where
  languages : List String
  categories : List Category
  analyze : String → List String → List Issue × Metrics

namespace PluginRegistry

/-- The registry state: name → plugin-type bindings, most recent first. -/
abbrev Registry := List (String × AnalyzerPlugin)

/-- The error a registry lookup can signal. -/
inductive RegistryError where
  | notFound
deriving DecidableEq, Repr

/-- Modelled from the spec (§4.2, missing source): `register(name, T)`;
the most recent binding shadows older ones (last-write-wins). -/
def register (r : Registry) (name : String) (T : AnalyzerPlugin) : Registry :=
  (name, T) :: r

/-- Modelled from the spec (§4.2, missing source): `get(name)` returns
the bound plugin type, failing `NotFound` when the name is absent. -/
def get (r : Registry) (name : String) : Except RegistryError AnalyzerPlugin :=
  match r.find? fun p => p.1 == name with
  | some p => Except.ok p.2
  | none => Except.error RegistryError.notFound

/-- The names bound in the registry. -/
def names (r : Registry) : List String :=
  r.map fun p => p.1

end PluginRegistry

/-! ### Persistence query layer, modelled from the spec (§4.6)

The bytecode strings of `backend/app/repositories/analysis_repository`
show `get_by_user` building
`select(Analysis).where(user_id).order_by(desc(created_at)).offset(skip).limit(limit)`. -/

/-- The stored analysis row, with the fields `get_by_user` touches. -/
structure AnalysisRecord where
  id : Nat
  user_id : String
  created_at : Int
deriving DecidableEq, Repr

/-- Newest-first order on analysis records (descending `created_at`). -/
def newestFirst (a b : AnalysisRecord) : Prop :=
  b.created_at ≤ a.created_at

instance : DecidableRel newestFirst := fun a b =>
  inferInstanceAs (Decidable (b.created_at ≤ a.created_at))

instance : IsTotal AnalysisRecord newestFirst :=
  ⟨fun a b => le_total b.created_at a.created_at⟩

instance : IsTrans AnalysisRecord newestFirst :=
  ⟨fun _ _ _ h1 h2 => le_trans h2 h1⟩

/-- Modelled from the spec (§4.6, missing source; bytecode strings show
the same where/order-by-desc/offset/limit shape): `get_by_user` filters
the rows of one user, sorts them newest-first, skips `skip` rows and
returns at most `limit`. -/
def get_by_user (db : List AnalysisRecord) (u : String) (skip limit : Nat) : List AnalysisRecord :=
  ((((db.filter fun a => a.user_id == u).insertionSort newestFirst).drop skip).take limit)

/-! ### Concrete sample data used to instantiate the theorems -/

/-- A sample issue contributed by a successfully completing plugin. -/
def demoIssue : Issue :=
  { itype := "quality-rule", severity := Severity.medium, category := Category.quality,
    message := "sample finding", file := "main.ts", line := 3,
    snippet := "var x", reference := "Q-001" }

/-- A plugin run that completed and contributed one issue. -/
def demoRunOk : PluginRun :=
  { name := "quality-analyzer", result := Except.ok [demoIssue] }

/-- A plugin run that signalled `UnsupportedInput` on binary input. -/
def demoRunSkip : PluginRun :=
  { name := "binary-analyzer", result := Except.error PluginError.unsupportedInput }

/-- A plugin run that signalled an unexpected fault. -/
def demoRunFault : PluginRun :=
  { name := "flaky-analyzer", result := Except.error (PluginError.pluginFault "crash") }

/-- A sample plugin type satisfying the AnalyzerPlugin contract. -/
def demoPlugin : AnalyzerPlugin :=
  { languages := ["typescript"]
    categories := [Category.security]
    analyze := fun file lines => (matchPatterns typescriptSecurityPatterns file lines, zeroMetrics) }

/-- A sample registry with one plugin bound. -/
def demoRegistry : PluginRegistry.Registry :=
  PluginRegistry.register [] "ts-security" demoPlugin

/-- A sample analyses table with unique ids. -/
def demoDB : List AnalysisRecord :=
  [ { id := 0, user_id := "u", created_at := 100 },
    { id := 1, user_id := "u", created_at := 200 },
    { id := 2, user_id := "v", created_at := 300 } ]

/-- An API metric older than the 24-hour retention window at `now = 10^8`. -/
def demoMetricOld : ApiMetric :=
  { endpoint := "/analysis/stats", method := "GET", duration := 10, status := 200, timestamp := 0 }

/-- An API metric inside the 24-hour retention window at `now = 10^8`. -/
def demoMetricNew : ApiMetric :=
  { endpoint := "/alerts", method := "GET", duration := 20, status := 500, timestamp := 90000000 }

/-! ## Theorems -/

/-- C1 (counterexample): the mock `Analysis` record served by the
`GET /analysis/:id` handler does not satisfy the claimed fixed-weight
formula: its stored `global_score` is `0.7` while
`0.4·security + 0.3·quality + 0.2·complexity + 0.1·performance`
evaluates to `3.275` on its component scores. -/
theorem mock_analysis_global_score_cex :
    (mockAnalysisDetail 0).global_score ≠
      2/5 * (mockAnalysisDetail 0).security_score + 3/10 * (mockAnalysisDetail 0).quality_score
        + 1/5 * (mockAnalysisDetail 0).complexity_score
        + 1/10 * (mockAnalysisDetail 0).performance_score := by
  norm_num [mockAnalysisDetail]

/-- C1 (amended): for the spec-modelled scoring engine, `global_score`
is a deterministic pure function of the four component scores — any two
inputs with equal component scores have equal global scores — and equals
the fixed-weight average with weights security 0.4, quality 0.3,
complexity 0.2, performance 0.1.  The stored mock `Analysis` record does
not satisfy this formula (see the counterexample). -/
theorem global_score_weighted_average (i1 i2 : List Issue) (m1 m2 : Metrics)
    (hs : security_score i1 = security_score i2)
    (hq : quality_score i1 m1 = quality_score i2 m2)
    (hc : complexity_score m1 = complexity_score m2)
    (hp : performance_score i1 = performance_score i2) :
    global_score i1 m1 = global_score i2 m2
  ∧ global_score i1 m1 = 2/5 * security_score i1 + 3/10 * quality_score i1 m1
      + 1/5 * complexity_score m1 + 1/10 * performance_score i1 := by
  unfold global_score
  rw [hs, hq, hc, hp]
  exact ⟨rfl, rfl⟩

/-- C1 (witness): the amended theorem applied at the empty submission. -/
theorem global_score_weighted_average_witness :
    global_score [] zeroMetrics = 2/5 * security_score [] + 3/10 * quality_score [] zeroMetrics
      + 1/5 * complexity_score zeroMetrics + 1/10 * performance_score [] :=
  (global_score_weighted_average [] [] zeroMetrics zeroMetrics rfl rfl rfl rfl).2

/-- C2 (counterexample): on the spec-modelled scoring engine, with the
`quality_score` scale of 0–1 mandated by the spec, the `eval(userInput)`
submission's `global_score` is not `7.5`, and the empty submission's
`global_score` is not `10.0` (they are `6.3` and `7.3`). -/
theorem eval_input_global_score_cex :
    global_score [evalIssue] zeroMetrics ≠ 15/2 ∧ global_score [] zeroMetrics ≠ 10 := by
  constructor
  · norm_num +decide [global_score, security_score, quality_score, complexity_score,
      performance_score, issuePenalty, evalIssue, severityPenalty, zeroMetrics, List.filter_cons]
  · norm_num [global_score, security_score, quality_score, complexity_score,
      performance_score, issuePenalty, severityPenalty, zeroMetrics]

/-- C2 (amended): the source `eval(userInput)` analyzed against the
TypeScript security pattern set yields exactly one Issue, of severity
high, category security and reference CWE-95; `security_score` drops
from 10.0 by the severity-weighted penalty 2.5 to 7.5; and
`global_score` drops from its empty-input value by the weighted penalty
0.4 · 2.5 = 1.0 (from 7.3 to 6.3) — not from 10.0 to 7.5. -/
theorem eval_input_detection :
    matchPatterns typescriptSecurityPatterns "input.ts" ["eval(userInput)"] = [evalIssue]
  ∧ evalIssue.severity = Severity.high
  ∧ evalIssue.category = Category.security
  ∧ evalIssue.reference = "CWE-95"
  ∧ security_score [evalIssue] = 10 - severityPenalty Severity.high
  ∧ security_score [evalIssue] = 15/2
  ∧ global_score [evalIssue] zeroMetrics
      = global_score [] zeroMetrics - 2/5 * severityPenalty Severity.high
  ∧ global_score [evalIssue] zeroMetrics = 63/10 := by
  refine ⟨by decide, rfl, rfl, rfl, ?_, ?_, ?_, ?_⟩
  · norm_num +decide [security_score, issuePenalty, evalIssue, severityPenalty]
  · norm_num +decide [security_score, issuePenalty, evalIssue, severityPenalty]
  · norm_num +decide [global_score, security_score, quality_score, complexity_score,
      performance_score, issuePenalty, evalIssue, severityPenalty, zeroMetrics, List.filter_cons]
  · norm_num +decide [global_score, security_score, quality_score, complexity_score,
      performance_score, issuePenalty, evalIssue, severityPenalty, zeroMetrics, List.filter_cons]

/-- C3: in the spec-modelled orchestrator, when no plugin signals a
fatal (non-UnsupportedInput) error, the submission completes, every
`UnsupportedInput` plugin is recorded as skipped, and every issue of
every other plugin reaches the final outcome; whereas if any plugin
signals an unexpected fault, the whole submission ends `Failed` with
zero retained issues. -/
theorem orchestrator_fault_semantics (runs : List PluginRun) :
    ((∀ r ∈ runs, runIsFatal r = false) →
      (orchestrate runs).status = Status.completed
      ∧ (∀ r ∈ runs, r.result = Except.error PluginError.unsupportedInput →
          r.name ∈ (orchestrate runs).skipped)
      ∧ (∀ r ∈ runs, ∀ i ∈ runIssues r, i ∈ (orchestrate runs).issues))
  ∧ ((∃ r ∈ runs, runIsFatal r = true) →
      (orchestrate runs).status = Status.failed ∧ (orchestrate runs).issues = []) := by
  constructor
  · intro h
    have hany : runs.any runIsFatal = false := by
      rw [List.any_eq_false]
      intro r hr
      simp [h r hr]
    refine ⟨by simp [orchestrate, hany], ?_, ?_⟩
    · intro r hr hres
      simp only [orchestrate, hany, Bool.false_eq_true, if_false]
      exact List.mem_map.mpr ⟨r, List.mem_filter.mpr ⟨hr, by simp [runIsSkipped, hres]⟩, rfl⟩
    · intro r hr i hi
      simp only [orchestrate, hany, Bool.false_eq_true, if_false]
      exact List.mem_flatten.mpr ⟨runIssues r, List.mem_map.mpr ⟨r, hr, rfl⟩, hi⟩
  · rintro ⟨r, hr, hf⟩
    have hany : runs.any runIsFatal = true := List.any_eq_true.mpr ⟨r, hr, hf⟩
    simp [orchestrate, hany]

/-- C3 (witness): with a completing plugin, a plugin skipping on
`UnsupportedInput`, and (in the second scenario) a faulting plugin. -/
theorem orchestrator_fault_semantics_witness :
    (orchestrate [demoRunOk, demoRunSkip]).status = Status.completed
  ∧ "binary-analyzer" ∈ (orchestrate [demoRunOk, demoRunSkip]).skipped
  ∧ demoIssue ∈ (orchestrate [demoRunOk, demoRunSkip]).issues
  ∧ (orchestrate [demoRunOk, demoRunSkip, demoRunFault]).status = Status.failed
  ∧ (orchestrate [demoRunOk, demoRunSkip, demoRunFault]).issues = [] := by
  have h1 := (orchestrator_fault_semantics [demoRunOk, demoRunSkip]).1 (by
    intro r hr
    simp only [List.mem_cons, List.not_mem_nil, or_false] at hr
    rcases hr with h | h <;> (rw [h]; rfl))
  have h2 := (orchestrator_fault_semantics [demoRunOk, demoRunSkip, demoRunFault]).2
    ⟨demoRunFault, by simp, rfl⟩
  refine ⟨h1.1, ?_, ?_, h2.1, h2.2⟩
  · exact h1.2.1 demoRunSkip (by simp) rfl
  · exact h1.2.2 demoRunOk (by simp) demoIssue (by simp [demoRunOk, runIssues])

/-- C4: every `Analysis` status is one of the four states; every
transition the spec-modelled orchestrator performs follows
`Pending → Processing → {Completed, Failed}`; the status trace of every
submission is a chain of such transitions; and persistence never deletes
an `Analysis` — every record present before a `save` is still present
(by id) afterwards. -/
theorem status_state_machine :
    (∀ s : Status, s = Status.pending ∨ s = Status.processing
      ∨ s = Status.completed ∨ s = Status.failed)
  ∧ (∀ s t : Status, StatusStep s t →
      (s = Status.pending ∧ t = Status.processing)
      ∨ (s = Status.processing ∧ (t = Status.completed ∨ t = Status.failed)))
  ∧ (∀ runs : List PluginRun, List.Chain' StatusStep (submissionTrace runs))
  ∧ (∀ (store : List FrontendAnalysis) (a x : FrontendAnalysis),
      x ∈ store → ∃ y ∈ save store a, y.id = x.id) := by
  refine ⟨?_, ?_, ?_, ?_⟩
  · intro s
    cases s
    · exact Or.inl rfl
    · exact Or.inr (Or.inl rfl)
    · exact Or.inr (Or.inr (Or.inl rfl))
    · exact Or.inr (Or.inr (Or.inr rfl))
  · intro s t h
    cases h
    · exact Or.inl ⟨rfl, rfl⟩
    · exact Or.inr ⟨rfl, Or.inl rfl⟩
    · exact Or.inr ⟨rfl, Or.inr rfl⟩
  · intro runs
    simp only [submissionTrace, List.chain'_cons, List.chain'_singleton, and_true]
    refine ⟨StatusStep.start, ?_⟩
    by_cases hf : runs.any runIsFatal = true
    · simp only [orchestrate, hf, if_true]
      exact StatusStep.fail
    · simp only [orchestrate, hf, if_false]
      exact StatusStep.complete
  · intro store a x hx
    unfold save
    by_cases h : (store.any fun y => y.id == a.id) = true
    · simp only [h, if_true]
      refine ⟨if x.id == a.id then a else x, List.mem_map.mpr ⟨x, hx, rfl⟩, ?_⟩
      by_cases hxa : (x.id == a.id) = true
      · rw [if_pos hxa]
        exact (eq_of_beq hxa).symm
      · rw [if_neg hxa]
    · simp only [h, if_false]
      exact ⟨x, List.mem_cons_of_mem _ hx, rfl⟩

/-- C4 (witness): the transition characterization applied to the
`Pending → Processing` step, and `save` at a one-record store. -/
theorem status_state_machine_witness :
    ((Status.pending = Status.pending ∧ Status.processing = Status.processing)
      ∨ (Status.pending = Status.processing
          ∧ (Status.processing = Status.completed ∨ Status.processing = Status.failed)))
  ∧ ∃ y ∈ save [mockAnalysisDetail 0] (mockAnalysisDetail 5), y.id = (mockAnalysisDetail 0).id := by
  constructor
  · exact status_state_machine.2.1 Status.pending Status.processing StatusStep.start
  · exact status_state_machine.2.2.2 [mockAnalysisDetail 0] (mockAnalysisDetail 5)
      (mockAnalysisDetail 0) (List.mem_singleton_self _)

/-- C5: a submission none of whose lines matches any pattern produces an
empty issue list; on empty issues and zero metrics every component score
takes its maximum value (10, 10, 10, and 1 on the 0–1 quality scale),
the scores never exceed those maxima on any input, the global score is
maximal on the empty input; and the dashboard global-score computation
returns 100 when `issuesFound` is 0. -/
theorem zero_match_maximum_scores :
    (∀ (pats : List Pattern) (file : String) (lines : List String),
        (∀ line ∈ lines, ∀ pat ∈ pats, pat.matcher line = false) →
        matchPatterns pats file lines = [])
  ∧ security_score [] = 10
  ∧ performance_score [] = 10
  ∧ complexity_score zeroMetrics = 10
  ∧ quality_score [] zeroMetrics = 1
  ∧ (∀ (issues : List Issue) (m : Metrics),
      security_score issues ≤ 10 ∧ performance_score issues ≤ 10
      ∧ complexity_score m ≤ 10 ∧ quality_score issues m ≤ 1
      ∧ global_score issues m ≤ global_score [] zeroMetrics)
  ∧ (∀ stats : AnalysisStats, stats.issuesFound = 0 → calculateGlobalScore stats = 100) := by
  have hpen : ∀ (c : Category) (issues : List Issue), 0 ≤ issuePenalty c issues := by
    intro c issues
    apply List.sum_nonneg
    intro x hx
    rcases List.mem_map.mp hx with ⟨i, _, rfl⟩
    cases i.severity <;> norm_num [severityPenalty]
  refine ⟨?_, ?_, ?_, ?_, ?_, ?_, ?_⟩
  · intro pats file lines h
    rw [matchPatterns, List.flatten_eq_nil_iff]
    intro l hl
    rcases List.mem_map.mp hl with ⟨p, hp, rfl⟩
    have hline : p.2 ∈ lines := by
      have hmem := List.mem_map_of_mem Prod.snd hp
      rwa [List.enum_map_snd] at hmem
    rw [List.filterMap_eq_nil_iff]
    intro pat hpat
    rw [h p.2 hline pat hpat]
    rfl
  · norm_num [security_score, issuePenalty]
  · norm_num [performance_score, issuePenalty]
  · norm_num [complexity_score, zeroMetrics]
  · norm_num [quality_score, issuePenalty, zeroMetrics]
  · intro issues m
    have hs : security_score issues ≤ 10 :=
      max_le (by norm_num) (by linarith [hpen Category.security issues])
    have hp : performance_score issues ≤ 10 :=
      max_le (by norm_num) (by linarith [hpen Category.performance issues])
    have hc : complexity_score m ≤ 10 :=
      max_le (by norm_num) (min_le_left _ _)
    have hq : quality_score issues m ≤ 1 :=
      max_le (by norm_num) (min_le_left _ _)
    refine ⟨hs, hp, hc, hq, ?_⟩
    have hge : global_score [] zeroMetrics = 73/10 := by
      norm_num [global_score, security_score, quality_score, complexity_score,
        performance_score, issuePenalty, severityPenalty, zeroMetrics]
    rw [global_score, hge]
    linarith
  · intro stats h
    simp [calculateGlobalScore, h]

/-- C5 (witness): a clean one-line TypeScript source matched against the
TypeScript security pattern set, and the dashboard score at the initial
all-zero stats of `useDashboard`. -/
theorem zero_match_maximum_scores_witness :
    matchPatterns typescriptSecurityPatterns "clean.ts" ["const x = 1"] = []
  ∧ calculateGlobalScore
      { totalScans := 0, issuesFound := 0, issuesResolved := 0,
        averageResolutionTime := "0 days" } = 100 := by
  constructor
  · exact zero_match_maximum_scores.1 typescriptSecurityPatterns "clean.ts"
      ["const x = 1"] (by decide)
  · exact zero_match_maximum_scores.2.2.2.2.2.2 _ rfl

/-- C6: registering a plugin type under a name and then looking that
name up returns exactly that plugin type, and looking up a name that was
never registered fails with `NotFound`. -/
theorem registry_register_get (r : PluginRegistry.Registry) (x y : String)
    (T : AnalyzerPlugin) (hy : y ∉ PluginRegistry.names r) :
    PluginRegistry.get (PluginRegistry.register r x T) x = Except.ok T
  ∧ PluginRegistry.get r y = Except.error PluginRegistry.RegistryError.notFound := by
  constructor
  · simp [PluginRegistry.get, PluginRegistry.register]
  · have hnone : (r.find? fun p => p.1 == y) = none := by
      rw [List.find?_eq_none]
      intro p hp hb
      exact hy (by
        rw [show y = p.1 from (eq_of_beq hb).symm]
        exact List.mem_map_of_mem (fun q => q.1) hp)
    rw [PluginRegistry.get, hnone]

/-- C6 (witness): a registry holding one plugin, a fresh registration
looked up, and a lookup of an unregistered name. -/
theorem registry_register_get_witness :
    PluginRegistry.get (PluginRegistry.register demoRegistry "quality-checker" demoPlugin)
        "quality-checker" = Except.ok demoPlugin
  ∧ PluginRegistry.get demoRegistry "unknown-plugin"
      = Except.error PluginRegistry.RegistryError.notFound :=
  registry_register_get demoRegistry "quality-checker" "unknown-plugin" demoPlugin
    (by decide)

/-- C7: when the stored analyses have pairwise distinct ids,
`get_by_user u 0 10` returns at most ten records, ordered newest-first
by creation time, and the page at offset 10 shares no record with the
page at offset 0. -/
theorem get_by_user_pagination (db : List AnalysisRecord) (u : String)
    (h : (db.map fun a => a.id).Nodup) :
    (get_by_user db u 0 10).length ≤ 10
  ∧ List.Sorted newestFirst (get_by_user db u 0 10)
  ∧ List.Disjoint (get_by_user db u 0 10) (get_by_user db u 10 10) := by
  have hdb : db.Nodup := List.Nodup.of_map _ h
  have hfil : (db.filter fun a => a.user_id == u).Nodup := hdb.filter _
  have hnd : ((db.filter fun a => a.user_id == u).insertionSort newestFirst).Nodup :=
    ((List.perm_insertionSort newestFirst _).nodup_iff).mpr hfil
  have hsort : List.Sorted newestFirst
      ((db.filter fun a => a.user_id == u).insertionSort newestFirst) :=
    List.sorted_insertionSort newestFirst _
  have h0 : get_by_user db u 0 10
      = ((db.filter fun a => a.user_id == u).insertionSort newestFirst).take 10 := by
    rw [get_by_user, List.drop_zero]
  refine ⟨?_, ?_, ?_⟩
  · rw [h0]
    exact List.length_take_le 10 _
  · rw [h0]
    exact List.Pairwise.sublist (List.take_sublist _ _) hsort
  · rw [h0]
    intro a ha hb
    exact (List.disjoint_take_drop hnd (le_refl 10)) ha
      (List.take_subset _ _ hb)

/-- C7 (witness): the pagination properties on a concrete three-row
table with unique ids. -/
theorem get_by_user_pagination_witness :
    (get_by_user demoDB "u" 0 10).length ≤ 10
  ∧ List.Sorted newestFirst (get_by_user demoDB "u" 0 10)
  ∧ List.Disjoint (get_by_user demoDB "u" 0 10) (get_by_user demoDB "u" 10 10) :=
  get_by_user_pagination demoDB "u" (by decide)

/-- C8 (counterexample): the claim that the dashboard global score
exceeds 100 whenever `issuesResolved > issuesFound` fails: with 1001
resolved of 1000 found, the resolution rate is 100.1 and `Math.round`
returns exactly 100. -/
theorem dashboard_score_no_clamp_cex :
    1000 < 1001
  ∧ calculateGlobalScore
      { totalScans := 1500, issuesFound := 1000, issuesResolved := 1001,
        averageResolutionTime := "1 day" } = 100 := by
  constructor
  · norm_num
  · simp [calculateGlobalScore, jsRound]
    norm_num [Rat.floor_def]

/-- C8 (amended): for stats with `issuesFound > 0`, the dashboard
`calculateGlobalScore` returns `Math.round((issuesResolved /
issuesFound) * 100)` with no upper clamp; whenever
`issuesResolved ≥ issuesFound` the displayed score is at least 100, and
it can exceed 100 — it is 305 for the bundled mock stats of
`issuesResolved` 128 and `issuesFound` 42. -/
theorem dashboard_score_characterization (stats : AnalysisStats)
    (h : stats.issuesFound ≠ 0) :
    calculateGlobalScore stats
      = jsRound ((stats.issuesResolved : ℚ) / (stats.issuesFound : ℚ) * 100)
  ∧ (stats.issuesFound ≤ stats.issuesResolved → 100 ≤ calculateGlobalScore stats)
  ∧ calculateGlobalScore mockAnalysisStats = 305 := by
  refine ⟨by simp [calculateGlobalScore, h], ?_, ?_⟩
  · intro hle
    have hf0 : (0 : ℚ) < (stats.issuesFound : ℚ) := by
      exact_mod_cast Nat.pos_of_ne_zero h
    have h1 : (1 : ℚ) ≤ (stats.issuesResolved : ℚ) / (stats.issuesFound : ℚ) :=
      (one_le_div hf0).mpr (by exact_mod_cast hle)
    have hq : (100 : ℚ) ≤ (stats.issuesResolved : ℚ) / (stats.issuesFound : ℚ) * 100 := by
      nlinarith
    rw [calculateGlobalScore, if_neg h, jsRound, Int.le_floor]
    push_cast
    linarith
  · simp [calculateGlobalScore, jsRound, mockAnalysisStats]
    norm_num [Rat.floor_def]

/-- C8 (witness): the characterization applied at the bundled mock
stats, whose `issuesFound` is 42. -/
theorem dashboard_score_characterization_witness :
    calculateGlobalScore mockAnalysisStats = 305 :=
  (dashboard_score_characterization mockAnalysisStats (by decide)).2.2

/-- C9: `getMetrics` is total: the average-duration and error-rate
helpers return 0 on an empty metric list (the divisions by
`metrics.length` are guarded), and the error rate always lies in
`[0, 100]`. -/
theorem getMetrics_total_and_bounded (stored : List ApiMetric) (now : Int) (tr : TimeRange) :
    MonitoringService.calculateAverageDuration [] = 0
  ∧ MonitoringService.calculateErrorRate [] = 0
  ∧ 0 ≤ (MonitoringService.getMetrics stored now tr).errorRate
  ∧ (MonitoringService.getMetrics stored now tr).errorRate ≤ 100 := by
  have key : ∀ ms : List ApiMetric,
      0 ≤ MonitoringService.calculateErrorRate ms
      ∧ MonitoringService.calculateErrorRate ms ≤ 100 := by
    intro ms
    rw [MonitoringService.calculateErrorRate]
    by_cases hlen : ms.length = 0
    · simp [hlen]
    · rw [if_neg hlen]
      have hpos : (0 : ℚ) < (ms.length : ℚ) := by
        exact_mod_cast Nat.pos_of_ne_zero hlen
      have hle : (((ms.filter fun m => 400 ≤ m.status).length : ℚ)) ≤ (ms.length : ℚ) := by
        exact_mod_cast List.length_filter_le _ ms
      constructor
      · positivity
      · have hdiv : ((ms.filter fun m => 400 ≤ m.status).length : ℚ) / (ms.length : ℚ) ≤ 1 :=
          (div_le_one hpos).mpr hle
        nlinarith
  exact ⟨rfl, rfl, (key _).1, (key _).2⟩

/-- C10: after `logApiCall`, every entry of the metrics list has a
timestamp strictly within the last 24 hours — the call appends the new
metric and then filters out every older entry, so the retention bound is
an invariant of the only mutating operation. -/
theorem logApiCall_retention (stored : List ApiMetric) (metric : ApiMetric) (now : Int) :
    ∀ m ∈ MonitoringService.logApiCall stored metric now,
      now - 24 * 60 * 60 * 1000 < m.timestamp := by
  intro m hm
  simp only [MonitoringService.logApiCall] at hm
  exact of_decide_eq_true (List.mem_filter.mp hm).2

/-- C10 (witness): a fresh metric logged at `now = 10^8` next to a stale
one survives the retention filter and satisfies the bound. -/
theorem logApiCall_retention_witness :
    (100000000 : Int) - 24 * 60 * 60 * 1000 < demoMetricNew.timestamp :=
  logApiCall_retention [demoMetricOld] demoMetricNew 100000000 demoMetricNew (by decide)

end AuditronAI
